import Mathlib

/-!
Shallow embedding of `bin/manage_asana_task.py` (mozmeao/asana-github-bridge).

Python strings are modelled as Lean `String` (a structure over `List Char`);
Python `None`-able strings as `Option String`.  The third-party collaborators
(the `markdown` renderer and `bleach.clean`) are abstracted as function
parameters, exactly as the script treats them: opaque string transformers.
Outbound HTTP traffic is modelled by an explicit trace of `Call` values; the
responses the network would produce are fields of a `World` record, so every
function of the script becomes a pure function of its inputs and that world.
-/

set_option autoImplicit false

namespace AsanaBridge

/-! ### Python string primitives used by the script -/

/-- Python `str.split(sep)` for a one-character separator, on character lists.
`"".split(",") == [""]` is faithfully reproduced: `splitOnChar c [] = [[]]`. -/
def splitOnChar (sep : Char) : List Char → List (List Char)
  | [] => [[]]
  | c :: cs =>
    let r := splitOnChar sep cs
    if c = sep then [] :: r
    else
      match r with
      | [] => [[c]]
      | g :: gs => (c :: g) :: gs

/-- Python `str.strip()`: drop whitespace from both ends. -/
def pyStrip (l : List Char) : List Char :=
  ((l.dropWhile Char.isWhitespace).reverse.dropWhile Char.isWhitespace).reverse

/-- Python `str(x)` on an optional string: `None` prints as `"None"`. -/
def pyStr : Option String → String
  | some s => s
  | none => "None"

/-- Python `str.replace(old, new, 1)`: replace the first occurrence of `old`
(replacing at position 0 when `old` is empty), leave the string unchanged when
`old` does not occur. -/
def replaceFirstL (pat rep : List Char) : List Char → List Char
  | [] => if pat.isPrefixOf ([] : List Char) then rep else []
  | c :: cs =>
    if pat.isPrefixOf (c :: cs) then rep ++ (c :: cs).drop pat.length
    else c :: replaceFirstL pat rep cs

/-- Fueled scanner behind `pyReplaceAll`; one unit of fuel is spent per scanned
character, so fuel `s.length` always suffices for a non-empty pattern. -/
def pyReplaceAllAux (pat rep : List Char) : Nat → List Char → List Char
  | _, [] => []
  | 0, s => s
  | fuel + 1, c :: cs =>
    if pat.isPrefixOf (c :: cs) then
      rep ++ pyReplaceAllAux pat rep fuel (cs.drop (pat.length - 1))
    else c :: pyReplaceAllAux pat rep fuel cs

/-- Python `str.replace(old, new)`: replace every (leftmost, non-overlapping)
occurrence of `old`; an empty `old` inserts `new` at every position. -/
def pyReplaceAll (pat rep s : List Char) : List Char :=
  if pat = [] then rep ++ s.foldr (fun c acc => c :: (rep ++ acc)) []
  else pyReplaceAllAux pat rep s.length s

/-- String-level Python `str.replace(old, new)` (replace all occurrences). -/
def pyReplace (s old new : String) : String :=
  String.mk (pyReplaceAll old.data new.data s.data)

/-- String-level Python `str.replace(old, new, 1)` (replace first occurrence). -/
def pyReplaceFirst (s old new : String) : String :=
  String.mk (replaceFirstL old.data new.data s.data)

/-- Python `str.lower()` (ASCII case folding is all the script needs). -/
def pyLower (s : String) : String :=
  String.mk (s.data.map Char.toLower)

/-- Does `pat` occur as a contiguous substring of `s`?  Executable scan used to
state the absent-substring case of the URL transform. -/
def containsSub (pat : List Char) : List Char → Bool
  | [] => pat.isPrefixOf ([] : List Char)
  | c :: cs => pat.isPrefixOf (c :: cs) || containsSub pat cs

/-! ### Module constants of `bin/manage_asana_task.py` -/

def MESSAGE_UNABLE_TO_CREATE_ASANA_PERMALINK : String := "Error creating Asana task"

def FLAG_ONLY_REACT_TO_SPECIFIED_USERS : String := "specified-users"

def FLAG_ONLY_REACT_TO_ALL : String := "all"

/-- `ASANA_ALLOWED_TAGS_FOR_TASKS`: the Python set is modelled as a list; it is
only ever handed to the (abstract) `bleach.clean` collaborator. -/
def ASANA_ALLOWED_TAGS_FOR_TASKS : List String :=
  ["a", "body", "code", "em", "h1", "h2", "hr", "li", "ol", "s", "strong", "u", "ul"]

/-! ### Outbound HTTP calls as a trace -/

/-- One outbound HTTP request made by the script.  `postComment` records the
URL posted to and the comment body, which is all the claims inspect. -/
inductive Call where
  | getProject : Call
  | postCreateTask : Call
  | postComment (url : String) (body : String) : Call
deriving DecidableEq

def isCommentCall : Call → Bool
  | Call.postComment _ _ => true
  | _ => false

def hasCommentCall (calls : List Call) : Bool :=
  calls.any isCommentCall

/-! ### Responses the outside world would return -/

/-- One `custom_field_settings` entry of the Asana project payload. -/
structure CustomFieldSetting where
  name : String
  gid : String
deriving DecidableEq

/-- Response to the `GET` project-configuration request. -/
structure ProjectResp where
  status_code : Nat
  custom_field_settings : List CustomFieldSetting
deriving DecidableEq

/-- Response to the task-creation `POST`: its status and the
`data.permalink_url` field of the JSON body (`none` when the field, or the
whole `data` object, is absent — Python `dict.get` then yields `None`). -/
structure AsanaResp where
  status_code : Nat
  permalink_url : Option String
deriving DecidableEq

/-- Environment variables and canned network responses consumed by one run.
`md` stands for `markdown.markdown` and `clean` for
`bleach.clean(html, tags, strip=True)` (tags first), the two third-party pure
collaborators.  The comment-`POST` response only ever gets logged, so it is
not carried here. -/
structure World where
  md : String → String
  clean : List String → String → String
  gid_env : Option String
  project_resp : ProjectResp
  create_resp : AsanaResp
  repo_token : Option String

/-- The two policy-relevant environment variables, `ONLY_REACT_TO` and
`ACTOR_ALLOWLIST` (each `none` when unset). -/
structure PolicyEnv where
  only_react_to : Option String
  actor_allowlist : Option String

/-- Environment variables describing the triggering issue event. -/
structure MainEnv where
  repo : String
  actor : String
  issue_url : String
  issue_title : String
  issue_body : String
  policy : PolicyEnv

/-! ### The functions of the script -/

/-- `[x.strip() for x in environ.get("ACTOR_ALLOWLIST", "").split(",")]`. -/
def parsedAllowlist (al : Option String) : List String :=
  (splitOnChar (',' : Char) (al.getD "").data).map (fun cs => String.mk (pyStrip cs))

/-- `_may_bridge_to_asana(actor, repo_info)`.  The source function performs no
HTTP request in any branch; it only reads the two environment variables. -/
def _may_bridge_to_asana (env : PolicyEnv) (actor : String) (repo_info : String) : Bool :=
  let only_react_to_flag := env.only_react_to
  let actor_allowlist := parsedAllowlist env.actor_allowlist
  if only_react_to_flag = some FLAG_ONLY_REACT_TO_ALL then
    true
  else if only_react_to_flag = some FLAG_ONLY_REACT_TO_SPECIFIED_USERS then
    if actor ∈ actor_allowlist then true else false
  else
    false

/-- `_get_github_issue_field_gid(field_name)`: returns the custom-field GID
and the trace of lookups (one `GET` when the env var is unset or empty). -/
def _get_github_issue_field_gid (gid_env : Option String) (project_resp : ProjectResp)
    (field_name : String) : String × List Call :=
  let issue_field_gid := gid_env.getD ""
  if issue_field_gid = "" then
    let gid :=
      if project_resp.status_code = 200 then
        match project_resp.custom_field_settings.find?
            (fun cfs => pyLower cfs.name == pyLower field_name) with
        | some cfs => cfs.gid
        | none => ""
      else ""
    (gid, [Call.getProject])
  else
    (issue_field_gid, [])

/-- `_build_task_body(issue_body, issue_url, custom_gh_field_known)`:
render Markdown, first sanitisation pass with the allowlist plus `p`,
change detection against the `<hr />`-normalised rendering, second pass
without `p`, then the `<body>` template.  Returns (html, contentChanged). -/
def _build_task_body (md : String → String) (clean : List String → String → String)
    (issue_body : String) (issue_url : String) (custom_gh_field_known : Bool) :
    String × Bool :=
  let rendered_issue_body := md issue_body
  let tagsPlusP := ASANA_ALLOWED_TAGS_FOR_TASKS ++ ["p"]
  let sanitised_issue_body := clean tagsPlusP rendered_issue_body
  let rendered_adjusted := pyReplace rendered_issue_body "<hr />" "<hr>"
  let content_changed_during_sanitization := sanitised_issue_body != rendered_adjusted
  let content_disclaimer_string :=
    if content_changed_during_sanitization then
      "<hr>\nNote: The original Issue contained content which cannot be displayed in an Asana Task"
    else ""
  let sanitised_issue_body := clean ASANA_ALLOWED_TAGS_FOR_TASKS sanitised_issue_body
  let optional_link_string :=
    if custom_gh_field_known then ""
    else "<a href=\"" ++ issue_url ++ "\">Github</a>"
  let html_body :=
    "<body>\n" ++ sanitised_issue_body ++ "\n" ++ optional_link_string ++ "\n"
      ++ content_disclaimer_string ++ "\n</body>"
  (html_body, content_changed_during_sanitization)

/-- `create_task(issue_url, issue_title, issue_body)`: returns
((task_permalink, description_was_changed), trace).  The permalink is
`Option String`: Python initialises it to the sentinel string and, on a 201
response, overwrites it with `data.permalink_url` (possibly `None`).  A
non-201 response is only logged; the function never raises. -/
def create_task (w : World) (issue_url : String) (issue_title : String)
    (issue_body : String) : (Option String × Bool) × List Call :=
  let task_permalink : Option String := some MESSAGE_UNABLE_TO_CREATE_ASANA_PERMALINK
  let gidResult := _get_github_issue_field_gid w.gid_env w.project_resp "Github Issue"
  let custom_gh_issue_field_gid := gidResult.1
  let _custom_fields : List (String × String) :=
    if custom_gh_issue_field_gid != "" then [(custom_gh_issue_field_gid, issue_url)] else []
  let bodyResult :=
    _build_task_body w.md w.clean issue_body issue_url (custom_gh_issue_field_gid != "")
  let _task_body := bodyResult.1
  let github_description_was_changed_for_asana := bodyResult.2
  let task_permalink :=
    if w.create_resp.status_code = 201 then w.create_resp.permalink_url
    else task_permalink
  ((task_permalink, github_description_was_changed_for_asana),
    gidResult.2 ++ [Call.postCreateTask])

/-- `_transform_to_api_url(html_url)`. -/
def _transform_to_api_url (html_url : String) : String :=
  pyReplaceFirst html_url "https://github.com/" "https://api.github.com/repos/"

/-- `add_task_as_comment_on_github_issue(...)`: no `REPO_TOKEN` (unset or
empty) means log-and-skip; otherwise one comment `POST` whose body embeds
`str(task_permalink)`.  The response is only logged. -/
def add_task_as_comment_on_github_issue (w : World) (issue_api_url : String)
    (task_permalink : Option String)
    (github_description_was_changed_for_asana : Bool) : List Call :=
  if (w.repo_token.getD "") = "" then []
  else
    let commenting_url := issue_api_url ++ "/comments"
    let comment :=
      "This issue has been copied to Asana: " ++ pyStr task_permalink
        ++ (if github_description_was_changed_for_asana then
              " **However**, some of the content was not mirrored due to markup restrictions."
                ++ " Please review the Asana Task."
            else "")
    [Call.postComment commenting_url comment]

/-- `main()`: policy check, then task creation, then — unless the permalink
still compares unequal to the failure sentinel — the comment-back call.
Returns the trace of outbound HTTP requests of the whole run. -/
def main_run (w : World) (env : MainEnv) : List Call :=
  if _may_bridge_to_asana env.policy env.actor env.repo then
    let r := create_task w env.issue_url env.issue_title env.issue_body
    let task_permalink := r.1.1
    let github_description_was_changed_for_asana := r.1.2
    let commentCalls :=
      if task_permalink ≠ some MESSAGE_UNABLE_TO_CREATE_ASANA_PERMALINK then
        add_task_as_comment_on_github_issue w (_transform_to_api_url env.issue_url)
          task_permalink github_description_was_changed_for_asana
      else []
    r.2 ++ commentCalls
  else []

/-! ### AllowRepoTeamMembers mode (modelled from the spec) -/

/-- Responses of the membership directory for team-mode evaluation: the
repo-teams listing (`none` = non-success status) and, per team, that team's
member list (`none` = non-success status). -/
structure TeamsDirectory where
  teams_resp : Option (List String)
  members_resp : String → Option (List String)

/-- Modelled from the spec: the member-list walk of the AllowRepoTeamMembers
mode, which is absent from `src/bin/manage_asana_task.py` (only the tests
reference `FLAG_ONLY_REACT_TO_REPO_TEAM`).  Spec 4.3: for each team, in
listing order, fetch its member list (fatal abort on non-success, modelled by
`Except.error`); return true as soon as the actor is found, short-circuiting.
The second component counts the member-list lookups performed. -/
def fetchTeamsMembership (dir : TeamsDirectory) (actor : String) :
    List String → Except Unit Bool × Nat
  | [] => (Except.ok false, 0)
  | t :: rest =>
    match dir.members_resp t with
    | none => (Except.error (), 1)
    | some ms =>
      if actor ∈ ms then (Except.ok true, 1)
      else
        let r := fetchTeamsMembership dir actor rest
        (r.1, r.2 + 1)

/-- Modelled from the spec: the AllowRepoTeamMembers policy mode (spec 4.3),
absent from `src/bin/manage_asana_task.py`.  Fetch the repo's team list
(fatal abort on non-success, after exactly that one lookup), then walk the
teams via `fetchTeamsMembership`.  The second component is the total number
of lookups performed (teams listing plus member lists). -/
def mayBridgeRepoTeamMode (dir : TeamsDirectory) (actor : String) :
    Except Unit Bool × Nat :=
  match dir.teams_resp with
  | none => (Except.error (), 1)
  | some teams =>
    let r := fetchTeamsMembership dir actor teams
    (r.1, r.2 + 1)

/-! ### Theorems -/

/-- With an unset (or empty) `ACTOR_ALLOWLIST`, the parsed allowlist is the
one-element list containing the empty string (Python `"".split(",") == [""]`). -/
theorem parsedAllowlist_empty (al : Option String) (h : al = none ∨ al = some "") :
    parsedAllowlist al = [""] := by
  rcases h with h | h <;> subst h <;> decide

/-- C1: In AllowListedUsers mode the evaluator returns true iff the actor is a
member of the comma-split, whitespace-stripped allowlist; because Python
`"".split(",")` yields `[""]`, an unset or empty allowlist denies every
NONEMPTY actor, while the empty actor string is allowed.  (Amended form of
the claim; see the counterexample for the original "always false" clause.)
The source function makes no HTTP request in any branch. -/
theorem may_bridge_specified_users (al : Option String) (actor repo_info : String) :
    (_may_bridge_to_asana ⟨some FLAG_ONLY_REACT_TO_SPECIFIED_USERS, al⟩ actor repo_info = true
      ↔ actor ∈ parsedAllowlist al)
    ∧ ((al = none ∨ al = some "") → actor ≠ "" →
      _may_bridge_to_asana ⟨some FLAG_ONLY_REACT_TO_SPECIFIED_USERS, al⟩ actor repo_info
        = false) := by
  constructor
  · by_cases h : actor ∈ parsedAllowlist al <;>
      simp [_may_bridge_to_asana, FLAG_ONLY_REACT_TO_SPECIFIED_USERS,
        FLAG_ONLY_REACT_TO_ALL, h]
  · intro hal hactor
    have hl : parsedAllowlist al = [""] := parsedAllowlist_empty al hal
    have h : actor ∉ parsedAllowlist al := by
      rw [hl]
      simpa using hactor
    simp [_may_bridge_to_asana, FLAG_ONLY_REACT_TO_SPECIFIED_USERS,
      FLAG_ONLY_REACT_TO_ALL, h]

/-- C1 witness: allowlist `"" `(empty), actor `"carol"` is denied. -/
theorem may_bridge_specified_users_witness :
    _may_bridge_to_asana ⟨some FLAG_ONLY_REACT_TO_SPECIFIED_USERS, some ""⟩ "carol"
      "example/luftballons" = false :=
  (may_bridge_specified_users (some "") "carol" "example/luftballons").2
    (Or.inr rfl) (by decide)

/-- C1 counterexample: the claim says an unset allowlist makes the evaluator
return false for EVERY actor, but for the empty-string actor it returns true,
because `environ.get("ACTOR_ALLOWLIST", "").split(",")` is `[""]` and
`"" in [""]` holds. -/
theorem may_bridge_empty_allowlist_cex :
    _may_bridge_to_asana ⟨some FLAG_ONLY_REACT_TO_SPECIFIED_USERS, none⟩ ""
      "octocat/Hello-World" = true := by
  decide

/-- C8: for any `ONLY_REACT_TO` value other than the two recognised modes
(`"all"`, `"specified-users"`), the evaluator returns false; it is a total
function making no external lookup (the source function performs no HTTP
request in any branch) and raising nothing. -/
theorem may_bridge_unrecognized_mode (flag al : Option String) (actor repo_info : String)
    (h1 : flag ≠ some FLAG_ONLY_REACT_TO_ALL)
    (h2 : flag ≠ some FLAG_ONLY_REACT_TO_SPECIFIED_USERS) :
    _may_bridge_to_asana ⟨flag, al⟩ actor repo_info = false := by
  simp [_may_bridge_to_asana, h1, h2]

/-- C8 witness: the nonsense mode from the repository's own test suite. -/
theorem may_bridge_unrecognized_mode_witness :
    _may_bridge_to_asana ⟨some "not-a-recognised-value", some "alice,bob"⟩
      "alexander-testington" "example/luftballons" = false :=
  may_bridge_unrecognized_mode (some "not-a-recognised-value") (some "alice,bob")
    "alexander-testington" "example/luftballons" (by decide) (by decide)

/-- C2: the contentChanged flag is true exactly when the first-pass filtering
(allowlist plus `p`, strip semantics) of the rendered Markdown differs from
the rendered Markdown with every `"<hr />"` replaced by `"<hr>"`. -/
theorem build_task_body_content_changed (md : String → String)
    (clean : List String → String → String) (issue_body issue_url : String)
    (custom_gh_field_known : Bool) :
    (_build_task_body md clean issue_body issue_url custom_gh_field_known).2 = true
      ↔ clean (ASANA_ALLOWED_TAGS_FOR_TASKS ++ ["p"]) (md issue_body)
          ≠ pyReplace (md issue_body) "<hr />" "<hr>" := by
  simp [_build_task_body, bne_iff_ne]

/-- C4: on a 201 response `create_task` returns the permalink taken from the
response body, on any other status the fixed sentinel string; in both cases
the sanitisation-changed flag computed by `_build_task_body` is passed
through unchanged, and the function returns a value instead of raising. -/
theorem create_task_status_behaviour (w : World)
    (issue_url issue_title issue_body p : String) :
    (w.create_resp.status_code = 201 → w.create_resp.permalink_url = some p →
      (create_task w issue_url issue_title issue_body).1 =
        (some p,
          (_build_task_body w.md w.clean issue_body issue_url
            ((_get_github_issue_field_gid w.gid_env w.project_resp "Github Issue").1
              != "")).2))
    ∧ (w.create_resp.status_code ≠ 201 →
      (create_task w issue_url issue_title issue_body).1 =
        (some MESSAGE_UNABLE_TO_CREATE_ASANA_PERMALINK,
          (_build_task_body w.md w.clean issue_body issue_url
            ((_get_github_issue_field_gid w.gid_env w.project_resp "Github Issue").1
              != "")).2)) := by
  constructor
  · intro hs hp
    simp [create_task, hs, hp]
  · intro hs
    simp [create_task, hs]

/-- C4 witness: a 201 response with the example permalink, and a 404 response
yielding the sentinel, on a concrete world. -/
theorem create_task_status_behaviour_witness :
    (create_task
        ⟨fun s => s, fun _ s => s, some "fake-gid-value", ⟨200, []⟩,
          ⟨201, some "https://asana.example.com/task/1234"⟩, some "tok"⟩
        "https://example.com/luftballons/issues/99" "99 Red Balloons" "1980s classic").1
      = (some "https://asana.example.com/task/1234", false)
    ∧ (create_task
        ⟨fun s => s, fun _ s => s, some "fake-gid-value", ⟨200, []⟩,
          ⟨404, some "https://asana.example.com/task/1234"⟩, some "tok"⟩
        "https://example.com/luftballons/issues/99" "99 Red Balloons" "1980s classic").1
      = (some MESSAGE_UNABLE_TO_CREATE_ASANA_PERMALINK, false) :=
  ⟨(create_task_status_behaviour _ "https://example.com/luftballons/issues/99"
      "99 Red Balloons" "1980s classic" "https://asana.example.com/task/1234").1
      (by decide) (by decide),
    (create_task_status_behaviour
      ⟨fun s => s, fun _ s => s, some "fake-gid-value", ⟨200, []⟩,
        ⟨404, some "https://asana.example.com/task/1234"⟩, some "tok"⟩
      "https://example.com/luftballons/issues/99"
      "99 Red Balloons" "1980s classic" "unused").2 (by decide)⟩

/-- C5: when the access policy denies the actor, the orchestrator makes no
outbound HTTP call at all — neither task creation nor comment posting. -/
theorem main_run_denied (w : World) (env : MainEnv)
    (h : _may_bridge_to_asana env.policy env.actor env.repo = false) :
    main_run w env = [] := by
  simp [main_run, h]

/-- C5 witness: unset `ONLY_REACT_TO` denies, and the run's trace is empty. -/
theorem main_run_denied_witness :
    main_run
      ⟨fun s => s, fun _ s => s, some "fake-gid-value", ⟨200, []⟩,
        ⟨201, some "https://asana.example.com/task/1234"⟩, some "tok"⟩
      ⟨"example/luftballons", "alexander-testington",
        "https://github.com/example/luftballons/issues/99", "99 Red Balloons",
        "1980s classic", ⟨none, none⟩⟩ = [] :=
  main_run_denied _ _ (by decide)

/-- Auxiliary: the trace of `create_task` never contains a comment call — it
is at most the project-configuration `GET` followed by the creation `POST`. -/
theorem create_task_calls_no_comment (w : World)
    (issue_url issue_title issue_body : String) :
    hasCommentCall (create_task w issue_url issue_title issue_body).2 = false := by
  simp only [create_task, _get_github_issue_field_gid]
  by_cases h : w.gid_env.getD "" = "" <;>
    simp [h, hasCommentCall, isCommentCall]

/-- C9: when the policy check passes but `create_task` hands back the failure
sentinel, the orchestrator does not attempt the comment-back call. -/
theorem main_run_sentinel_skips_comment (w : World) (env : MainEnv)
    (hallow : _may_bridge_to_asana env.policy env.actor env.repo = true)
    (hsent : (create_task w env.issue_url env.issue_title env.issue_body).1.1
      = some MESSAGE_UNABLE_TO_CREATE_ASANA_PERMALINK) :
    hasCommentCall (main_run w env) = false := by
  have hc := create_task_calls_no_comment w env.issue_url env.issue_title env.issue_body
  simp only [main_run, hallow, if_true, hsent, ne_eq, not_true_eq_false, if_false,
    ite_false]
  simp only [hasCommentCall, List.any_append] at hc ⊢
  simp [hc]

/-- C9 witness: policy mode "all", creation fails with a 404, no comment call
appears in the trace. -/
theorem main_run_sentinel_skips_comment_witness :
    hasCommentCall
      (main_run
        ⟨fun s => s, fun _ s => s, some "fake-gid-value", ⟨200, []⟩,
          ⟨404, some "https://asana.example.com/task/1234"⟩, some "tok"⟩
        ⟨"example/luftballons", "alexander-testington",
          "https://github.com/example/luftballons/issues/99", "99 Red Balloons",
          "1980s classic", ⟨some FLAG_ONLY_REACT_TO_ALL, none⟩⟩) = false :=
  main_run_sentinel_skips_comment _ _ (by decide) (by decide)

/-- C10: a 201 creation response whose body lacks `data.permalink_url` makes
`create_task` return Python `None` (modelled `none`) — neither a URL nor the
sentinel — so the orchestrator's sentinel comparison succeeds and it posts a
comment whose text renders that value as the string `"None"`. -/
theorem create_task_none_permalink_comment (w : World) (env : MainEnv)
    (hallow : _may_bridge_to_asana env.policy env.actor env.repo = true)
    (hstatus : w.create_resp.status_code = 201)
    (hperm : w.create_resp.permalink_url = none)
    (htok : (w.repo_token.getD "") ≠ "") :
    (create_task w env.issue_url env.issue_title env.issue_body).1.1 = none
    ∧ (create_task w env.issue_url env.issue_title env.issue_body).1.1
        ≠ some MESSAGE_UNABLE_TO_CREATE_ASANA_PERMALINK
    ∧ ∃ suffix,
        Call.postComment (_transform_to_api_url env.issue_url ++ "/comments")
          ("This issue has been copied to Asana: None" ++ suffix) ∈ main_run w env := by
  have h1 : (create_task w env.issue_url env.issue_title env.issue_body).1.1 = none := by
    simp [create_task, hstatus, hperm]
  refine ⟨h1, by simp [h1], ?_⟩
  refine ⟨if (create_task w env.issue_url env.issue_title env.issue_body).1.2 then
      " **However**, some of the content was not mirrored due to markup restrictions."
        ++ " Please review the Asana Task."
    else "", ?_⟩
  simp only [main_run, hallow, if_true, h1]
  have hne : (none : Option String) ≠ some MESSAGE_UNABLE_TO_CREATE_ASANA_PERMALINK := by
    simp
  rw [if_pos hne]
  simp only [add_task_as_comment_on_github_issue, htok, if_neg htok, pyStr]
  refine List.mem_append_right _ ?_
  by_cases hch : (create_task w env.issue_url env.issue_title env.issue_body).1.2 <;>
    simp [hch]

/-- C10 witness: concrete world with a 201/no-permalink response; the posted
comment references `None`. -/
theorem create_task_none_permalink_comment_witness :
    (create_task
        ⟨fun s => s, fun _ s => s, some "fake-gid-value", ⟨200, []⟩, ⟨201, none⟩,
          some "tok"⟩
        "https://github.com/example/luftballons/issues/99" "99 Red Balloons"
        "1980s classic").1.1 = none
    ∧ (create_task
        ⟨fun s => s, fun _ s => s, some "fake-gid-value", ⟨200, []⟩, ⟨201, none⟩,
          some "tok"⟩
        "https://github.com/example/luftballons/issues/99" "99 Red Balloons"
        "1980s classic").1.1 ≠ some MESSAGE_UNABLE_TO_CREATE_ASANA_PERMALINK
    ∧ ∃ suffix,
        Call.postComment
          (_transform_to_api_url "https://github.com/example/luftballons/issues/99"
            ++ "/comments")
          ("This issue has been copied to Asana: None" ++ suffix) ∈
          main_run
            ⟨fun s => s, fun _ s => s, some "fake-gid-value", ⟨200, []⟩, ⟨201, none⟩,
              some "tok"⟩
            ⟨"example/luftballons", "alexander-testington",
              "https://github.com/example/luftballons/issues/99", "99 Red Balloons",
              "1980s classic", ⟨some FLAG_ONLY_REACT_TO_ALL, none⟩⟩ :=
  create_task_none_permalink_comment
    ⟨fun s => s, fun _ s => s, some "fake-gid-value", ⟨200, []⟩, ⟨201, none⟩, some "tok"⟩
    ⟨"example/luftballons", "alexander-testington",
      "https://github.com/example/luftballons/issues/99", "99 Red Balloons",
      "1980s classic", ⟨some FLAG_ONLY_REACT_TO_ALL, none⟩⟩
    (by decide) (by decide) (by decide) (by decide)

/-- `List.isPrefixOf` on characters agrees with the existence of a suffix. -/
theorem isPrefixOf_iff_append : ∀ (pat s : List Char),
    pat.isPrefixOf s = true ↔ ∃ t, s = pat ++ t
  | [], s => by simp [List.isPrefixOf]
  | a :: as, [] => by simp [List.isPrefixOf]
  | a :: as, b :: bs => by
    simp only [List.isPrefixOf, Bool.and_eq_true, beq_iff_eq]
    constructor
    · rintro ⟨rfl, h⟩
      obtain ⟨t, rfl⟩ := (isPrefixOf_iff_append as bs).1 h
      exact ⟨t, rfl⟩
    · rintro ⟨t, h⟩
      injection h with h1 h2
      subst h1
      exact ⟨rfl, (isPrefixOf_iff_append as bs).2 ⟨t, h2⟩⟩

/-- A string with no occurrence of the pattern is left unchanged by
`replaceFirstL`. -/
theorem replaceFirstL_of_not_contains (pat rep : List Char) :
    ∀ s, containsSub pat s = false → replaceFirstL pat rep s = s
  | [], h => by
    simp only [containsSub] at h
    simp [replaceFirstL, h]
  | c :: cs, h => by
    simp only [containsSub, Bool.or_eq_false_iff] at h
    simp [replaceFirstL, h.1, replaceFirstL_of_not_contains pat rep cs h.2]

/-- When the pattern matches at the front, `replaceFirstL` substitutes there. -/
theorem replaceFirstL_head_match (pat rep : List Char) (s : List Char)
    (h : pat.isPrefixOf s = true) :
    replaceFirstL pat rep s = rep ++ s.drop pat.length := by
  cases s with
  | nil =>
    have hp : pat = [] := by
      cases pat with
      | nil => rfl
      | cons a as => simp [List.isPrefixOf] at h
    subst hp
    simp [replaceFirstL]
  | cons c cs => simp [replaceFirstL, h]

/-- `replaceFirstL` rewrites exactly the leftmost occurrence: if position
`a.length` is minimal among all decompositions around the pattern, the
replacement happens there and the rest of the string is untouched. -/
theorem replaceFirstL_first_occurrence (pat rep : List Char) :
    ∀ (a b : List Char),
      (∀ a2 b2, a ++ pat ++ b = a2 ++ pat ++ b2 → a.length ≤ a2.length) →
      replaceFirstL pat rep (a ++ pat ++ b) = a ++ rep ++ b
  | [], b, _ => by
    have h : pat.isPrefixOf (pat ++ b) = true :=
      (isPrefixOf_iff_append pat (pat ++ b)).2 ⟨b, rfl⟩
    rw [List.nil_append, replaceFirstL_head_match pat rep _ h, List.drop_left,
      List.nil_append]
  | c :: a, b, hmin => by
    have hnp : pat.isPrefixOf (c :: (a ++ pat ++ b)) = false := by
      by_contra hcon
      rw [Bool.not_eq_false] at hcon
      obtain ⟨t, ht⟩ := (isPrefixOf_iff_append pat _).1 hcon
      have hle := hmin [] t ht
      simp at hle
    have ih := replaceFirstL_first_occurrence pat rep a b
      (fun a2 b2 heq => by
        have hle := hmin (c :: a2) b2 (by
          show c :: (a ++ pat ++ b) = c :: (a2 ++ pat ++ b2)
          rw [heq])
        simpa using hle)
    show (if pat.isPrefixOf (c :: (a ++ pat ++ b)) = true then
        rep ++ (c :: (a ++ pat ++ b)).drop pat.length
      else c :: replaceFirstL pat rep (a ++ pat ++ b)) = (c :: a) ++ rep ++ b
    rw [if_neg (by rw [hnp]; simp), ih]
    simp

/-- C6: the URL transform replaces the first occurrence of the literal
`"https://github.com/"` with `"https://api.github.com/repos/"` (conjunct 2,
where `a.length` minimal says the occurrence shown is the leftmost), returns
the input unchanged when the substring is absent (conjunct 1), and maps the
two documented examples as stated. -/
theorem transform_to_api_url_spec :
    (∀ s : String, containsSub "https://github.com/".data s.data = false →
      _transform_to_api_url s = s)
    ∧ (∀ a b : List Char,
        (∀ a2 b2, a ++ "https://github.com/".data ++ b
            = a2 ++ "https://github.com/".data ++ b2 → a.length ≤ a2.length) →
        _transform_to_api_url (String.mk (a ++ "https://github.com/".data ++ b))
          = String.mk (a ++ "https://api.github.com/repos/".data ++ b))
    ∧ _transform_to_api_url "https://github.com/mozilla/bedrock"
        = "https://api.github.com/repos/mozilla/bedrock"
    ∧ _transform_to_api_url "https://gitlab.com/mozmeao/bedrock"
        = "https://gitlab.com/mozmeao/bedrock" := by
  refine ⟨?_, ?_, by decide, by decide⟩
  · intro s h
    show String.mk (replaceFirstL "https://github.com/".data
        "https://api.github.com/repos/".data s.data) = s
    rw [replaceFirstL_of_not_contains _ _ s.data h]
  · intro a b hmin
    show String.mk (replaceFirstL "https://github.com/".data
        "https://api.github.com/repos/".data (a ++ "https://github.com/".data ++ b))
      = String.mk (a ++ "https://api.github.com/repos/".data ++ b)
    rw [replaceFirstL_first_occurrence _ _ a b hmin]

/-- C6 witness: the absent-substring case on the gitlab example and the
leftmost-occurrence case at position 0 on the github example. -/
theorem transform_to_api_url_spec_witness :
    _transform_to_api_url "https://gitlab.com/mozmeao/bedrock"
        = "https://gitlab.com/mozmeao/bedrock"
    ∧ _transform_to_api_url
        (String.mk ([] ++ "https://github.com/".data ++ "mozilla/bedrock".data))
        = String.mk ([] ++ "https://api.github.com/repos/".data ++ "mozilla/bedrock".data) :=
  ⟨transform_to_api_url_spec.1 "https://gitlab.com/mozmeao/bedrock" (by decide),
    transform_to_api_url_spec.2.1 [] "mozilla/bedrock".data
      (fun a2 b2 h => Nat.zero_le a2.length)⟩

/-- The member-list walk returns true after exactly one lookup past the
unsuccessful teams when the actor first appears in team `t`. -/
theorem fetchTeamsMembership_found (dir : TeamsDirectory) (actor : String) :
    ∀ (pre : List String) (t : String) (post : List String),
      (∀ t2 ∈ pre, ∃ ms, dir.members_resp t2 = some ms ∧ actor ∉ ms) →
      (∃ ms, dir.members_resp t = some ms ∧ actor ∈ ms) →
      fetchTeamsMembership dir actor (pre ++ t :: post)
        = (Except.ok true, pre.length + 1)
  | [], t, post, _, hfound => by
    obtain ⟨ms, hms, hmem⟩ := hfound
    simp [fetchTeamsMembership, hms, hmem]
  | p :: pre, t, post, hpre, hfound => by
    obtain ⟨ms, hms, hnot⟩ := hpre p (List.mem_cons_self p pre)
    have ih := fetchTeamsMembership_found dir actor pre t post
      (fun t2 ht2 => hpre t2 (List.mem_cons_of_mem p ht2)) hfound
    simp [fetchTeamsMembership, hms, hnot, ih]

/-- The member-list walk returns false after one lookup per team when no team
contains the actor. -/
theorem fetchTeamsMembership_exhaust (dir : TeamsDirectory) (actor : String) :
    ∀ teams : List String,
      (∀ t ∈ teams, ∃ ms, dir.members_resp t = some ms ∧ actor ∉ ms) →
      fetchTeamsMembership dir actor teams = (Except.ok false, teams.length)
  | [], _ => by simp [fetchTeamsMembership]
  | t :: teams, h => by
    obtain ⟨ms, hms, hnot⟩ := h t (List.mem_cons_self t teams)
    have ih := fetchTeamsMembership_exhaust dir actor teams
      (fun t2 ht2 => h t2 (List.mem_cons_of_mem t ht2))
    simp [fetchTeamsMembership, hms, hnot, ih]

/-- C3: in AllowRepoTeamMembers mode the evaluator fetches the team list and
then each team's member list in listing order; it returns true as soon as the
actor is found, with one teams lookup plus one member lookup per team up to
and including the hit (so `pre.length + 2` lookups, and exactly 3 in the
two-teams example of the spec); it returns false after `teams.length + 1`
lookups when no team contains the actor. -/
theorem mayBridgeRepoTeamMode_spec (dir : TeamsDirectory) (actor : String) :
    (∀ pre t post, dir.teams_resp = some (pre ++ t :: post) →
      (∀ t2 ∈ pre, ∃ ms, dir.members_resp t2 = some ms ∧ actor ∉ ms) →
      (∃ ms, dir.members_resp t = some ms ∧ actor ∈ ms) →
      mayBridgeRepoTeamMode dir actor = (Except.ok true, pre.length + 2))
    ∧ (∀ teams, dir.teams_resp = some teams →
      (∀ t ∈ teams, ∃ ms, dir.members_resp t = some ms ∧ actor ∉ ms) →
      mayBridgeRepoTeamMode dir actor = (Except.ok false, teams.length + 1))
    ∧ (∀ t1 t2 ms1 ms2, dir.teams_resp = some [t1, t2] →
      dir.members_resp t1 = some ms1 → actor ∉ ms1 →
      dir.members_resp t2 = some ms2 → actor ∈ ms2 →
      mayBridgeRepoTeamMode dir actor = (Except.ok true, 3)) := by
  refine ⟨?_, ?_, ?_⟩
  · intro pre t post hteams hpre hfound
    simp [mayBridgeRepoTeamMode, hteams,
      fetchTeamsMembership_found dir actor pre t post hpre hfound]
  · intro teams hteams hnone
    simp [mayBridgeRepoTeamMode, hteams,
      fetchTeamsMembership_exhaust dir actor teams hnone]
  · intro t1 t2 ms1 ms2 hteams hm1 hn1 hm2 hin2
    have h := fetchTeamsMembership_found dir actor [t1] t2 []
      (fun t ht => by
        have ht1 : t = t1 := by simpa using ht
        subst ht1
        exact ⟨ms1, hm1, hn1⟩)
      ⟨ms2, hm2, hin2⟩
    have hl : ([t1] : List String) ++ t2 :: [] = [t1, t2] := rfl
    rw [hl] at h
    simp [mayBridgeRepoTeamMode, hteams, h]

/-- C3 witness: two teams, only the second contains the actor; result true
after exactly 3 lookups. -/
theorem mayBridgeRepoTeamMode_spec_witness :
    mayBridgeRepoTeamMode
      ⟨some ["team-one", "team-99"],
        fun t => if t = "team-one" then some ["alice-mctest", "bob-mctest"]
          else if t = "team-99" then some ["eve-mctest", "alexander-testington"]
          else none⟩
      "alexander-testington" = (Except.ok true, 3) :=
  (mayBridgeRepoTeamMode_spec
      ⟨some ["team-one", "team-99"],
        fun t => if t = "team-one" then some ["alice-mctest", "bob-mctest"]
          else if t = "team-99" then some ["eve-mctest", "alexander-testington"]
          else none⟩
      "alexander-testington").2.2 "team-one" "team-99"
    ["alice-mctest", "bob-mctest"] ["eve-mctest", "alexander-testington"]
    rfl (by decide) (by decide) (by decide) (by decide)

end AsanaBridge
